import Mathlib

/-!
Shallow embedding of the Reddit persona analyzer server
(`generatePersona` and `formatPersonaAsText`), together with proofs of the
specification claims about it.

Modelling conventions:
* A raw Reddit record is modelled by the four fields the engine reads
  (`title`, `body`, `subreddit`, `score`); a field that is absent or `null`
  upstream is `none`.
* JavaScript string falsiness (`a || b` falls through on `undefined`, `null`
  and `""`) is modelled by `jsOrStr`.
* JavaScript numbers are modelled by exact integers/rationals; `Math.round`
  is `fun x => Int.floor (x + 1/2)`, which is its behaviour on real values.
* A thrown exception is modelled by `Option.none`: `generatePersona` throws a
  `TypeError` (from `item.subreddit.toLowerCase()`) exactly when the combined
  item list is non-empty and some item lacks a `subreddit`.
* `Object.entries` of the counting object follows JavaScript own-key
  enumeration order: canonical array-index keys (canonical decimal integers
  below `2^32 - 1`, e.g. `"196"`) first in ascending numeric order, then the
  remaining own keys in insertion (first-assignment) order.  An origin named
  `"__proto__"` never becomes an own key (plain assignment hits the inherited
  `Object.prototype` setter, a no-op for non-object values) and is dropped
  from the entries.  An origin naming another `Object.prototype` member
  (`"toString"`, `"valueOf"`, ...) makes the program read the inherited
  function, so its stored "count" is an engine-defined non-numeric string and
  the subsequent sort order is implementation-defined; the embedding abstracts
  that value as the numeric count, and every theorem about the ranking
  excludes such origins through the `plainKey` hypothesis, so nothing proved
  relies on the abstraction.  `Array.prototype.sort` is stable, modelled by a
  stable insertion sort with the same comparator (descending count).
* The renderer's `new Date().toISOString()` is an ambient clock read; it is
  made explicit as the `now` argument of `formatPersonaAsText`.
-/

namespace PersonaAnalyzer

/-- A raw post/comment record, restricted to the fields the engine reads. -/
structure RawItem where
  title : Option String
  body : Option String
  subreddit : Option String
  score : Option Int
  deriving DecidableEq

/-- JavaScript `a || b` for an optional string `a`: `undefined`, `null` and
`""` fall through to `b`. -/
def jsOrStr (a : Option String) (b : String) : String :=
  match a with
  | some s => if s = "" then b else s
  | none => b

/-- JavaScript `(item.title || item.body || '')`. -/
def jsText (i : RawItem) : String := jsOrStr i.title (jsOrStr i.body "")

/-- JavaScript `(item.body || '')`. -/
def jsBody (i : RawItem) : String := jsOrStr i.body ""

/-- The object key used for `subredditCounts[item.subreddit]`; JavaScript
coerces an `undefined` key to the string `"undefined"`. -/
def keyOf (i : RawItem) : String := i.subreddit.getD "undefined"

/-- JavaScript `(item.score || 0)`. -/
def jsScore (i : RawItem) : Int := i.score.getD 0

/-- JavaScript `String.prototype.toLowerCase` (ASCII-faithful). -/
def lowerStr (s : String) : String := ⟨s.data.map Char.toLower⟩

/-- Whether `pat` occurs at the start of `s` (character lists). -/
def startsWithChars : List Char → List Char → Bool
  | [], _ => true
  | _ :: _, [] => false
  | a :: as, b :: bs => a == b && startsWithChars as bs

/-- Whether `pat` occurs somewhere inside `s` (character lists). -/
def hasSubChars (pat : List Char) : List Char → Bool
  | [] => startsWithChars pat []
  | b :: bs => startsWithChars pat (b :: bs) || hasSubChars pat bs

/-- JavaScript `s.includes(pat)`. -/
def strIncludes (s pat : String) : Bool := hasSubChars pat.data s.data

/-- `helpfulKeywords` from the source. -/
def helpfulKeywords : List String :=
  ["help", "advice", "suggestion", "recommend", "try this", "solution"]

/-- `techKeywords` from the source. -/
def techKeywords : List String :=
  ["code", "programming", "software", "tech", "development", "algorithm"]

/-- `creativeSubreddits` from the source. -/
def creativeSubreddits : List String :=
  ["art", "music", "writing", "photography", "design", "creative"]

/-- `helpfulContent`: items whose text contains a helpful keyword. -/
def helpfulContent (a : List RawItem) : List RawItem :=
  a.filter (fun i => helpfulKeywords.any (fun k => strIncludes (lowerStr (jsText i)) k))

/-- `techContent`: items whose text contains a tech keyword. -/
def techContent (a : List RawItem) : List RawItem :=
  a.filter (fun i => techKeywords.any (fun k => strIncludes (lowerStr (jsText i)) k))

/-- `creativeContent`: items whose subreddit contains a creative substring. -/
def creativeContent (a : List RawItem) : List RawItem :=
  a.filter (fun i => creativeSubreddits.any (fun sub => strIncludes (lowerStr (keyOf i)) sub))

/-- `longComments`: comments whose body is longer than 200 characters. -/
def longComments (comments : List RawItem) : List RawItem :=
  comments.filter (fun c => 200 < (jsBody c).length)

/-- One evidence record `{type, content, subreddit}`. -/
structure TraitEvidence where
  type : String
  content : String
  subreddit : String
  deriving DecidableEq

/-- JavaScript `s.substring(0, n)`. -/
def jsSubstring (s : String) (n : Nat) : String := ⟨s.data.take n⟩

/-- JavaScript `item.title ? 'post' : 'comment'` (truthiness of `title`). -/
def evType (i : RawItem) : String :=
  match i.title with
  | some t => if t = "" then "comment" else "post"
  | none => "comment"

/-- Evidence entry built for the keyword/subreddit rules: the text is cut to
`truncLen` characters and `"..."` is appended unconditionally. -/
def mkEvidence (truncLen : Nat) (i : RawItem) : TraitEvidence :=
  { type := evType i
    content := jsSubstring (jsText i) truncLen ++ "..."
    subreddit := keyOf i }

/-- Evidence entry built for the long-comment rule (`type` is always
`'comment'`, the body is cut to 150 characters, `"..."` appended). -/
def mkCommentEvidence (i : RawItem) : TraitEvidence :=
  { type := "comment"
    content := jsSubstring (jsBody i) 150 ++ "..."
    subreddit := keyOf i }

/-- One detected trait `{trait, evidence, confidence}`. -/
structure TraitDetection where
  trait : String
  evidence : List TraitEvidence
  confidence : Nat
  deriving DecidableEq

/-- The object pushed for "Helpful and Supportive". -/
def helpfulDetection (a : List RawItem) : TraitDetection :=
  { trait := "Helpful and Supportive"
    evidence := ((helpfulContent a).take 2).map (mkEvidence 100)
    confidence := min ((helpfulContent a).length * 10) 100 }

/-- The object pushed for "Technology Enthusiast". -/
def techDetection (a : List RawItem) : TraitDetection :=
  { trait := "Technology Enthusiast"
    evidence := ((techContent a).take 2).map (mkEvidence 100)
    confidence := min ((techContent a).length * 15) 100 }

/-- The object pushed for "Creative and Artistic". -/
def creativeDetection (a : List RawItem) : TraitDetection :=
  { trait := "Creative and Artistic"
    evidence := ((creativeContent a).take 2).map (mkEvidence 100)
    confidence := min ((creativeContent a).length * 20) 100 }

/-- The object pushed for "Thoughtful Communicator" (comments only). -/
def thoughtfulDetection (comments : List RawItem) : TraitDetection :=
  { trait := "Thoughtful Communicator"
    evidence := ((longComments comments).take 2).map mkCommentEvidence
    confidence := min ((longComments comments).length * 8) 100 }

/-- The `traits` array in push order: helpful, tech, creative, thoughtful;
each rule fires iff its match count strictly exceeds its threshold. -/
def traitsOf (a comments : List RawItem) : List TraitDetection :=
  (if 3 < (helpfulContent a).length then [helpfulDetection a] else [])
    ++ (if 2 < (techContent a).length then [techDetection a] else [])
    ++ (if 1 < (creativeContent a).length then [creativeDetection a] else [])
    ++ (if 5 < (longComments comments).length then [thoughtfulDetection comments] else [])

/-- Keys of `ks` that are not in `seen`, in order of first occurrence: the
insertion order of the keys of the `subredditCounts` object. -/
def keysFirstSeen : List String → List String → List String
  | _, [] => []
  | seen, k :: ks =>
    if k ∈ seen then keysFirstSeen seen ks else k :: keysFirstSeen (k :: seen) ks

/-- The numeric value of a digit string. -/
def digitsVal (cs : List Char) : Nat := cs.foldl (fun n c => n * 10 + (c.toNat - 48)) 0

/-- Whether `k` is a canonical ECMAScript array-index key: a canonical decimal
integer in `[0, 2^32 - 2]` (all digits, no leading zero except `"0"`).  Own
keys of this shape are enumerated before all other keys, in ascending numeric
order. -/
def isArrayIndexKey (k : String) : Bool :=
  match k.data with
  | [] => false
  | c :: cs =>
    (c :: cs).all Char.isDigit && (c != '0' || cs.isEmpty)
      && digitsVal (c :: cs) ≤ 4294967294

/-- The property names of `Object.prototype`.  Reading `subredditCounts[k]`
for such `k` sees an inherited value even before any assignment: assignment to
`"__proto__"` is a no-op (the inherited setter ignores non-object values), and
the other names make `(subredditCounts[k] || 0) + 1` produce an engine-defined
non-numeric string. -/
def objectProtoKeys : List String :=
  ["constructor", "toString", "toLocaleString", "valueOf", "hasOwnProperty",
   "isPrototypeOf", "propertyIsEnumerable", "__defineGetter__", "__defineSetter__",
   "__lookupGetter__", "__lookupSetter__", "__proto__"]

/-- An origin that behaves as a plain data key of the counting object: not an
array-index key (which would be enumerated out of insertion order) and not an
`Object.prototype` member name (which would be corrupted or dropped). -/
def plainKey (k : String) : Bool :=
  !isArrayIndexKey k && !(objectProtoKeys.contains k)

/-- Ascending numeric insertion for the array-index key section. -/
def insertIdxKey (k : String) : List String → List String
  | [] => [k]
  | j :: js =>
    if digitsVal k.data ≤ digitsVal j.data then k :: j :: js else j :: insertIdxKey k js

/-- Ascending numeric sort of the array-index keys (all values distinct, since
the keys are canonical). -/
def sortIdxKeys : List String → List String
  | [] => []
  | k :: ks => insertIdxKey k (sortIdxKeys ks)

/-- The own enumerable keys of the counting object, in `Object.entries` order:
`"__proto__"` assignments create no own key; array-index keys come first in
ascending numeric order; the remaining keys follow in insertion
(first-assignment) order. -/
def entriesKeys (ks : List String) : List String :=
  sortIdxKeys ((keysFirstSeen [] (ks.filter (fun k => k != "__proto__"))).filter
      (fun k => isArrayIndexKey k))
    ++ (keysFirstSeen [] (ks.filter (fun k => k != "__proto__"))).filter
      (fun k => !isArrayIndexKey k)

/-- `Object.entries(subredditCounts)`: the own keys in enumeration order, each
paired with its total occurrence count.  For origins colliding with an
`Object.prototype` member other than `"__proto__"` the real stored value is an
engine-defined string, abstracted here as the count; theorems about the
ranking assume `plainKey` origins and never rely on this abstraction. -/
def subredditCounts (a : List RawItem) : List (String × Nat) :=
  (entriesKeys (a.map keyOf)).map (fun k => (k, (a.map keyOf).count k))

/-- Stable insertion of an entry into a list sorted by descending count:
the entry goes before the first entry whose count is `≤` its own, so that
earlier entries win ties.  Models the comparator `([,a],[,b]) => b - a`. -/
def insertEntry (x : String × Nat) : List (String × Nat) → List (String × Nat)
  | [] => [x]
  | y :: ys => if y.2 ≤ x.2 then x :: y :: ys else y :: insertEntry x ys

/-- Stable sort by descending count (`Array.prototype.sort` is stable, so any
stable sort with the same comparator computes the same list). -/
def sortEntries : List (String × Nat) → List (String × Nat)
  | [] => []
  | x :: xs => insertEntry x (sortEntries xs)

/-- `topSubreddits`: the sorted entries, cut to the first 5. -/
def topSubreddits (a : List RawItem) : List (String × Nat) :=
  (sortEntries (subredditCounts a)).take 5

/-- One `{subreddit, count}` interest entry. -/
structure InterestEntry where
  subreddit : String
  count : Nat
  deriving DecidableEq

/-- The `engagement` record.  `mostActiveSubreddits` is `none` when the field
is absent from the object (the empty-activity result omits it). -/
structure Engagement where
  totalPosts : Nat
  totalComments : Nat
  avgScore : Rat
  mostActiveSubreddits : Option (List (String × Nat))
  deriving DecidableEq

/-- The full analysis result.  `interests` is `none` when the field is absent
from the object (the empty-activity result omits it). -/
structure PersonaResult where
  username : String
  summary : String
  interests : Option (List InterestEntry)
  traits : List TraitDetection
  engagement : Engagement
  deriving DecidableEq

/-- JavaScript `Math.round` on a real value: floor of `x + 1/2`. -/
def jsMathRound (x : Rat) : Int := ⌊x + 1/2⌋

/-- Total vote score `allContent.reduce((sum, item) => sum + (item.score || 0), 0)`. -/
def totalScoreOf (a : List RawItem) : Int := (a.map jsScore).sum

/-- `Math.round(avgScore * 100) / 100` where `avgScore = totalScore / allContent.length`. -/
def avgScoreOf (a : List RawItem) : Rat :=
  ((jsMathRound (((totalScoreOf a : Rat) / (a.length : Rat)) * 100) : Rat)) / 100

/-- JavaScript `Array.prototype.join(', ')`. -/
def joinComma : List String → String
  | [] => ""
  | x :: xs => xs.foldl (fun acc s => acc ++ ", " ++ s) x

/-- The degenerate result returned for empty activity.  Note the returned
object has no `interests` key and its engagement has no `mostActiveSubreddits`
key, hence the two `none` fields. -/
def emptyResult (u : String) : PersonaResult :=
  { username := u
    summary := "No public posts or comments found for analysis."
    interests := none
    traits := []
    engagement :=
      { totalPosts := 0, totalComments := 0, avgScore := 0, mostActiveSubreddits := none } }

/-- The result object assembled on the non-empty path of `generatePersona`. -/
def analyzeResult (u : String) (posts comments : List RawItem) : PersonaResult :=
  let a := posts ++ comments
  let tops := topSubreddits a
  { username := u
    summary :=
      "Active Reddit user with " ++ toString posts.length ++ " posts and "
        ++ toString comments.length ++ " comments. Primary interests include "
        ++ joinComma ((tops.take 3).map (fun e => e.1)) ++ "."
    interests := some (tops.map (fun e => { subreddit := e.1, count := e.2 }))
    traits := traitsOf a comments
    engagement :=
      { totalPosts := posts.length
        totalComments := comments.length
        avgScore := avgScoreOf a
        mostActiveSubreddits := some (tops.take 3) } }

/-- `generatePersona(username, {posts, comments})`.  Returns `none` exactly
when the JavaScript function throws: on a non-empty item list containing an
item without a `subreddit`, evaluating `item.subreddit.toLowerCase()` inside
the creative-subreddit filter raises a `TypeError`. -/
def generatePersona (u : String) (posts comments : List RawItem) : Option PersonaResult :=
  let a := posts ++ comments
  if a.isEmpty then some (emptyResult u)
  else if a.all (fun i => i.subreddit.isSome) then some (analyzeResult u posts comments)
  else none

/-- JavaScript `c.repeat(n)` for a single character. -/
def repChar (c : Char) (n : Nat) : String := ⟨List.replicate n c⟩

/-- Deterministic rendering of the average score.  JavaScript prints an
integral double without a fractional part; non-integral printing is
abstracted, which is sound because no claim depends on the digits. -/
def ratToString (q : Rat) : String :=
  if q.den = 1 then toString q.num else toString q.num ++ "/" ++ toString q.den

/-- Report text before the interpolated timestamp (title banner, username
line, and the `Generated: ` label). -/
def headerPre (p : PersonaResult) : String :=
  "REDDIT USER PERSONA ANALYSIS" ++ "\n" ++ repChar '=' 50 ++ "\n\n"
    ++ "Username: u/" ++ p.username ++ "\n" ++ "Generated: "

/-- The summary section. -/
def summaryPart (p : PersonaResult) : String :=
  "\n\n" ++ "SUMMARY" ++ "\n" ++ repChar '-' 20 ++ "\n" ++ p.summary ++ "\n\n"

/-- One numbered interest line. -/
def interestLine (idx : Nat) (e : InterestEntry) : String :=
  toString (idx + 1) ++ ". r/" ++ e.subreddit ++ " (" ++ toString e.count
    ++ " posts/comments)" ++ "\n"

/-- The `TOP INTERESTS` section; empty when `interests` is absent or empty
(`if (persona.interests && persona.interests.length > 0)`). -/
def interestsPart (p : PersonaResult) : String :=
  match p.interests with
  | none => ""
  | some l =>
    if l.isEmpty then ""
    else
      "TOP INTERESTS (by activity)" ++ "\n" ++ repChar '-' 30 ++ "\n"
        ++ String.join (l.enum.map (fun ie => interestLine ie.1 ie.2)) ++ "\n"

/-- One bulleted evidence line. -/
def evidenceLine (e : TraitEvidence) : String :=
  "   - [" ++ e.type ++ " in r/" ++ e.subreddit ++ "] " ++ e.content ++ "\n"

/-- One numbered trait block. -/
def traitBlock (idx : Nat) (t : TraitDetection) : String :=
  toString (idx + 1) ++ ". " ++ t.trait ++ " (" ++ toString t.confidence
    ++ "% confidence)" ++ "\n" ++ "   Evidence:" ++ "\n"
    ++ String.join (t.evidence.map evidenceLine) ++ "\n"

/-- The `PERSONALITY TRAITS` section; empty when `traits` is empty. -/
def traitsPart (p : PersonaResult) : String :=
  if p.traits.isEmpty then ""
  else
    "PERSONALITY TRAITS" ++ "\n" ++ repChar '-' 25 ++ "\n"
      ++ String.join (p.traits.enum.map (fun it => traitBlock it.1 it.2))

/-- The engagement totals block. -/
def engagementPart (p : PersonaResult) : String :=
  "ENGAGEMENT STATISTICS" ++ "\n" ++ repChar '-' 30 ++ "\n"
    ++ "Total Posts: " ++ toString p.engagement.totalPosts ++ "\n"
    ++ "Total Comments: " ++ toString p.engagement.totalComments ++ "\n"
    ++ "Average Score: " ++ ratToString p.engagement.avgScore ++ "\n"

/-- The `Most Active Subreddits:` line; empty when the field is absent
(`if (persona.engagement.mostActiveSubreddits)`). -/
def mostActivePart (p : PersonaResult) : String :=
  match p.engagement.mostActiveSubreddits with
  | none => ""
  | some l => "Most Active Subreddits: " ++ joinComma (l.map (fun e => "r/" ++ e.1)) ++ "\n"

/-- The trailing footer banner. -/
def footerPart : String :=
  "\n" ++ repChar '-' 50 ++ "\n" ++ "Analysis generated by Reddit Persona Analyzer" ++ "\n"

/-- `formatPersonaAsText(persona)` with the ambient clock read
(`new Date().toISOString()`) made explicit as `now`. -/
def formatPersonaAsText (now : String) (p : PersonaResult) : String :=
  headerPre p ++ now ++ summaryPart p ++ interestsPart p ++ traitsPart p
    ++ engagementPart p ++ mostActivePart p ++ footerPart

/-! ## Concrete data used by witnesses -/

/-- Item used in the C1 witness: a comment containing "code" in r/art. -/
def w1Item : RawItem := ⟨none, some "code", some "art", some 2⟩

/-- Result produced for three copies of `w1Item`: the tech rule fires
(3 > 2, confidence 45) and the creative rule fires (3 > 1, confidence 60). -/
def w1Result : PersonaResult :=
  { username := "u"
    summary := "Active Reddit user with 0 posts and 3 comments. Primary interests include art."
    interests := some [⟨"art", 3⟩]
    traits :=
      [⟨"Technology Enthusiast",
        [⟨"comment", "code...", "art"⟩, ⟨"comment", "code...", "art"⟩], 45⟩,
       ⟨"Creative and Artistic",
        [⟨"comment", "code...", "art"⟩, ⟨"comment", "code...", "art"⟩], 60⟩]
    engagement := ⟨0, 3, 2, some [("art", 3)]⟩ }

/-- Items used in the C5/C9 witnesses: origin "b" first, then "a" twice. -/
def w5Items : List RawItem :=
  [⟨some "x", none, some "b", none⟩, ⟨some "x", none, some "a", none⟩,
   ⟨some "x", none, some "a", none⟩]

/-- Result produced for `w5Items`. -/
def w5Result : PersonaResult :=
  { username := "u"
    summary := "Active Reddit user with 3 posts and 0 comments. Primary interests include a, b."
    interests := some [⟨"a", 2⟩, ⟨"b", 1⟩]
    traits := []
    engagement := ⟨3, 0, 0, some [("a", 2), ("b", 1)]⟩ }

/-- Items and detection used in the C10 witness: two short posts in r/art. -/
def w10ItemA : RawItem := ⟨some "hi", none, some "art", none⟩

def w10ItemB : RawItem := ⟨some "yo", none, some "art", none⟩

def w10Trait : TraitDetection :=
  ⟨"Creative and Artistic", [⟨"post", "hi...", "art"⟩, ⟨"post", "yo...", "art"⟩], 40⟩

def w10Result : PersonaResult :=
  { username := "u"
    summary := "Active Reddit user with 2 posts and 0 comments. Primary interests include art."
    interests := some [⟨"art", 2⟩]
    traits := [w10Trait]
    engagement := ⟨2, 0, 0, some [("art", 2)]⟩ }

/-! ## Structural lemmas -/

theorem mem_ite_singleton {α : Type} {P : Prop} [Decidable P] {x t : α} :
    (t ∈ if P then [x] else ([] : List α)) ↔ P ∧ t = x := by
  by_cases h : P <;> simp [h]

theorem mem_traitsOf {a c : List RawItem} {t : TraitDetection} :
    t ∈ traitsOf a c ↔
      (3 < (helpfulContent a).length ∧ t = helpfulDetection a) ∨
      (2 < (techContent a).length ∧ t = techDetection a) ∨
      (1 < (creativeContent a).length ∧ t = creativeDetection a) ∨
      (5 < (longComments c).length ∧ t = thoughtfulDetection c) := by
  simp only [traitsOf, List.mem_append, mem_ite_singleton, or_assoc]

theorem generate_eq_cases {u : String} {posts comments : List RawItem} {p : PersonaResult}
    (h : generatePersona u posts comments = some p) :
    (posts = [] ∧ comments = [] ∧ p = emptyResult u) ∨
    (posts ++ comments ≠ [] ∧
      (posts ++ comments).all (fun i => i.subreddit.isSome) = true ∧
      p = analyzeResult u posts comments) := by
  by_cases he : (posts ++ comments).isEmpty
  · left
    have hnil : posts ++ comments = [] := List.isEmpty_iff.mp he
    obtain ⟨h1, h2⟩ := List.append_eq_nil.mp hnil
    refine ⟨h1, h2, ?_⟩
    simp only [generatePersona, he, if_pos, Option.some.injEq] at h
    exact h.symm
  · by_cases ha : (posts ++ comments).all (fun i => i.subreddit.isSome)
    · right
      refine ⟨fun hnil => he (by simp [hnil]), ha, ?_⟩
      simp only [generatePersona, he, ha, if_neg, if_pos, Bool.not_eq_true,
        Option.some.injEq] at h
      exact h.symm
    · exfalso
      simp only [generatePersona, he, ha] at h
      exact Option.noConfusion h

/-! ## C1: trait presence iff strict threshold, confidence formula -/

/-- C1: for every input and each of the four fixed rules, the trait appears in
the produced result iff the number of qualifying items strictly exceeds the
rule's threshold (helpful keywords > 3, tech keywords > 2, creative origin
substrings > 1, long comments > 5), and any produced trait with that label has
confidence exactly `min(matchCount * multiplier, 100)`, a natural number that
never exceeds 100 (hence an integer in `[0, 100]`). -/
theorem persona_trait_threshold_iff (u : String) (posts comments : List RawItem)
    (p : PersonaResult) (h : generatePersona u posts comments = some p) :
    ((∃ t ∈ p.traits, t.trait = "Helpful and Supportive") ↔
      3 < (helpfulContent (posts ++ comments)).length) ∧
    ((∃ t ∈ p.traits, t.trait = "Technology Enthusiast") ↔
      2 < (techContent (posts ++ comments)).length) ∧
    ((∃ t ∈ p.traits, t.trait = "Creative and Artistic") ↔
      1 < (creativeContent (posts ++ comments)).length) ∧
    ((∃ t ∈ p.traits, t.trait = "Thoughtful Communicator") ↔
      5 < (longComments comments).length) ∧
    (∀ t ∈ p.traits,
      (t.trait = "Helpful and Supportive" →
        t.confidence = min ((helpfulContent (posts ++ comments)).length * 10) 100) ∧
      (t.trait = "Technology Enthusiast" →
        t.confidence = min ((techContent (posts ++ comments)).length * 15) 100) ∧
      (t.trait = "Creative and Artistic" →
        t.confidence = min ((creativeContent (posts ++ comments)).length * 20) 100) ∧
      (t.trait = "Thoughtful Communicator" →
        t.confidence = min ((longComments comments).length * 8) 100) ∧
      t.confidence ≤ 100) := by
  rcases generate_eq_cases h with ⟨hp, hcm, rfl⟩ | ⟨_, _, rfl⟩
  · subst hp; subst hcm
    simp [emptyResult, helpfulContent, techContent, creativeContent, longComments]
  · have htr : (analyzeResult u posts comments).traits = traitsOf (posts ++ comments) comments :=
      rfl
    rw [htr]
    refine ⟨?_, ?_, ?_, ?_, ?_⟩
    · constructor
      · rintro ⟨t, ht, hlab⟩
        rcases mem_traitsOf.mp ht with ⟨hn, rfl⟩ | ⟨hn, rfl⟩ | ⟨hn, rfl⟩ | ⟨hn, rfl⟩
        · exact hn
        · exact absurd hlab (by simp [techDetection])
        · exact absurd hlab (by simp [creativeDetection])
        · exact absurd hlab (by simp [thoughtfulDetection])
      · intro hn
        exact ⟨helpfulDetection (posts ++ comments),
          mem_traitsOf.mpr (Or.inl ⟨hn, rfl⟩), rfl⟩
    · constructor
      · rintro ⟨t, ht, hlab⟩
        rcases mem_traitsOf.mp ht with ⟨hn, rfl⟩ | ⟨hn, rfl⟩ | ⟨hn, rfl⟩ | ⟨hn, rfl⟩
        · exact absurd hlab (by simp [helpfulDetection])
        · exact hn
        · exact absurd hlab (by simp [creativeDetection])
        · exact absurd hlab (by simp [thoughtfulDetection])
      · intro hn
        exact ⟨techDetection (posts ++ comments),
          mem_traitsOf.mpr (Or.inr (Or.inl ⟨hn, rfl⟩)), rfl⟩
    · constructor
      · rintro ⟨t, ht, hlab⟩
        rcases mem_traitsOf.mp ht with ⟨hn, rfl⟩ | ⟨hn, rfl⟩ | ⟨hn, rfl⟩ | ⟨hn, rfl⟩
        · exact absurd hlab (by simp [helpfulDetection])
        · exact absurd hlab (by simp [techDetection])
        · exact hn
        · exact absurd hlab (by simp [thoughtfulDetection])
      · intro hn
        exact ⟨creativeDetection (posts ++ comments),
          mem_traitsOf.mpr (Or.inr (Or.inr (Or.inl ⟨hn, rfl⟩))), rfl⟩
    · constructor
      · rintro ⟨t, ht, hlab⟩
        rcases mem_traitsOf.mp ht with ⟨hn, rfl⟩ | ⟨hn, rfl⟩ | ⟨hn, rfl⟩ | ⟨hn, rfl⟩
        · exact absurd hlab (by simp [helpfulDetection])
        · exact absurd hlab (by simp [techDetection])
        · exact absurd hlab (by simp [creativeDetection])
        · exact hn
      · intro hn
        exact ⟨thoughtfulDetection comments,
          mem_traitsOf.mpr (Or.inr (Or.inr (Or.inr ⟨hn, rfl⟩))), rfl⟩
    · intro t ht
      rcases mem_traitsOf.mp ht with ⟨hn, rfl⟩ | ⟨hn, rfl⟩ | ⟨hn, rfl⟩ | ⟨hn, rfl⟩
      · exact ⟨fun _ => rfl, fun hl => absurd hl (by simp [helpfulDetection]),
          fun hl => absurd hl (by simp [helpfulDetection]),
          fun hl => absurd hl (by simp [helpfulDetection]), min_le_right _ _⟩
      · exact ⟨fun hl => absurd hl (by simp [techDetection]), fun _ => rfl,
          fun hl => absurd hl (by simp [techDetection]),
          fun hl => absurd hl (by simp [techDetection]), min_le_right _ _⟩
      · exact ⟨fun hl => absurd hl (by simp [creativeDetection]),
          fun hl => absurd hl (by simp [creativeDetection]), fun _ => rfl,
          fun hl => absurd hl (by simp [creativeDetection]), min_le_right _ _⟩
      · exact ⟨fun hl => absurd hl (by simp [thoughtfulDetection]),
          fun hl => absurd hl (by simp [thoughtfulDetection]),
          fun hl => absurd hl (by simp [thoughtfulDetection]), fun _ => rfl,
          min_le_right _ _⟩

/-- Witness for C1 at a concrete input on which two rules fire. -/
theorem persona_trait_threshold_iff_witness :
    ((∃ t ∈ w1Result.traits, t.trait = "Helpful and Supportive") ↔
      3 < (helpfulContent ([] ++ [w1Item, w1Item, w1Item])).length) ∧
    ((∃ t ∈ w1Result.traits, t.trait = "Technology Enthusiast") ↔
      2 < (techContent ([] ++ [w1Item, w1Item, w1Item])).length) ∧
    ((∃ t ∈ w1Result.traits, t.trait = "Creative and Artistic") ↔
      1 < (creativeContent ([] ++ [w1Item, w1Item, w1Item])).length) ∧
    ((∃ t ∈ w1Result.traits, t.trait = "Thoughtful Communicator") ↔
      5 < (longComments [w1Item, w1Item, w1Item]).length) ∧
    (∀ t ∈ w1Result.traits,
      (t.trait = "Helpful and Supportive" →
        t.confidence = min ((helpfulContent ([] ++ [w1Item, w1Item, w1Item])).length * 10) 100) ∧
      (t.trait = "Technology Enthusiast" →
        t.confidence = min ((techContent ([] ++ [w1Item, w1Item, w1Item])).length * 15) 100) ∧
      (t.trait = "Creative and Artistic" →
        t.confidence = min ((creativeContent ([] ++ [w1Item, w1Item, w1Item])).length * 20) 100) ∧
      (t.trait = "Thoughtful Communicator" →
        t.confidence = min ((longComments [w1Item, w1Item, w1Item]).length * 8) 100) ∧
      t.confidence ≤ 100) :=
  persona_trait_threshold_iff "u" [] [w1Item, w1Item, w1Item] w1Result
    (by with_unfolding_all decide)

/-! ## C2: empty input short-circuits to the degenerate result -/

/-- C2 counterexample: on `{posts: [], comments: []}` the produced object has
NO `interests` field at all (modelled as `none`), which is not the empty list
the claim asserts. -/
theorem persona_empty_interests_absent :
    generatePersona "testuser" [] [] =
      some { username := "testuser"
             summary := "No public posts or comments found for analysis."
             interests := none
             traits := []
             engagement := ⟨0, 0, 0, none⟩ } ∧
    (none : Option (List InterestEntry)) ≠ some [] := ⟨rfl, by decide⟩

/-- C2 (amended): for empty input the analysis short-circuits to the exact
degenerate result: the literal summary, empty `traits`, zero engagement with
no `mostActiveSubreddits` field, and an ABSENT `interests` field (the
degenerate object carries no `interests` key, it is not an empty list).  No
rule evaluation is reached on this path. -/
theorem persona_empty_input (u : String) :
    generatePersona u [] [] =
      some { username := u
             summary := "No public posts or comments found for analysis."
             interests := none
             traits := []
             engagement := ⟨0, 0, 0, none⟩ } := rfl

/-! ## C3: totality with respect to malformed fields -/

/-- C3 counterexample: a single post whose `subreddit` is absent makes
`generatePersona` throw (`item.subreddit.toLowerCase()` raises a `TypeError`
inside the creative-subreddit filter), modelled by the `none` result. -/
theorem persona_throws_on_missing_subreddit :
    generatePersona "w3" [⟨some "t", none, none, none⟩] [] = none := by decide

/-- C3 (amended): the engine never throws as long as every item carries a
`subreddit`; absent `title`, `body` and `score` degrade to defaults.  (A
missing `subreddit` on a non-empty input, by contrast, aborts the analysis —
see the counterexample.) -/
theorem persona_total_when_subreddits_present (u : String) (posts comments : List RawItem)
    (h : (posts ++ comments).all (fun i => i.subreddit.isSome) = true) :
    (generatePersona u posts comments).isSome = true := by
  by_cases he : (posts ++ comments).isEmpty <;> simp [generatePersona, he, h]

/-- Witness for C3: an item with no body and no score, but with a subreddit. -/
theorem persona_total_witness :
    (generatePersona "w3" [⟨some "t", none, some "s", some 1⟩] []).isSome = true :=
  persona_total_when_subreddits_present "w3" [⟨some "t", none, some "s", some 1⟩] [] (by decide)

/-! ## C4: engagement totals and average score -/

/-- C10: every trait in a produced result has confidence at least
`(threshold + 1) * multiplier` for its rule — 40, 45, 40 and 48 respectively —
and in particular never confidence 0. -/
theorem persona_trait_confidence_lb (u : String) (posts comments : List RawItem)
    (p : PersonaResult) (h : generatePersona u posts comments = some p) :
    ∀ t ∈ p.traits,
      0 < t.confidence ∧
      (t.trait = "Helpful and Supportive" → 40 ≤ t.confidence) ∧
      (t.trait = "Technology Enthusiast" → 45 ≤ t.confidence) ∧
      (t.trait = "Creative and Artistic" → 40 ≤ t.confidence) ∧
      (t.trait = "Thoughtful Communicator" → 48 ≤ t.confidence) := by
  intro t ht
  rcases generate_eq_cases h with ⟨_, _, rfl⟩ | ⟨_, _, rfl⟩
  · simp [emptyResult] at ht
  · have ht' : t ∈ traitsOf (posts ++ comments) comments := ht
    rcases mem_traitsOf.mp ht' with ⟨hn, rfl⟩ | ⟨hn, rfl⟩ | ⟨hn, rfl⟩ | ⟨hn, rfl⟩
    · refine ⟨?_, fun _ => ?_, fun hl => absurd hl (by simp [helpfulDetection]),
        fun hl => absurd hl (by simp [helpfulDetection]),
        fun hl => absurd hl (by simp [helpfulDetection])⟩ <;>
        · simp only [helpfulDetection]
          omega
    · refine ⟨?_, fun hl => absurd hl (by simp [techDetection]), fun _ => ?_,
        fun hl => absurd hl (by simp [techDetection]),
        fun hl => absurd hl (by simp [techDetection])⟩ <;>
        · simp only [techDetection]
          omega
    · refine ⟨?_, fun hl => absurd hl (by simp [creativeDetection]),
        fun hl => absurd hl (by simp [creativeDetection]), fun _ => ?_,
        fun hl => absurd hl (by simp [creativeDetection])⟩ <;>
        · simp only [creativeDetection]
          omega
    · refine ⟨?_, fun hl => absurd hl (by simp [thoughtfulDetection]),
        fun hl => absurd hl (by simp [thoughtfulDetection]),
        fun hl => absurd hl (by simp [thoughtfulDetection]), fun _ => ?_⟩ <;>
        · simp only [thoughtfulDetection]
          omega

/-- Witness for C10: the creative trait detected from two r/art posts has
positive confidence. -/
theorem persona_trait_confidence_lb_witness : 0 < w10Trait.confidence :=
  (persona_trait_confidence_lb "u" [w10ItemA, w10ItemB] [] w10Result
    (by with_unfolding_all decide) w10Trait (by decide)).1

/-! ## Sorting and aggregation lemmas -/

theorem mem_insertEntry {x y : String × Nat} {l : List (String × Nat)} :
    y ∈ insertEntry x l ↔ y = x ∨ y ∈ l := by
  induction l with
  | nil => simp [insertEntry]
  | cons z zs ih =>
    simp only [insertEntry]
    split
    · simp [List.mem_cons]
    · simp [List.mem_cons, ih]
      tauto

theorem insertEntry_perm (x : String × Nat) (l : List (String × Nat)) :
    List.Perm (insertEntry x l) (x :: l) := by
  induction l with
  | nil => simp [insertEntry]
  | cons z zs ih =>
    simp only [insertEntry]
    split
    · exact List.Perm.refl _
    · exact (List.Perm.cons z ih).trans (List.Perm.swap x z zs)

theorem sortEntries_perm (l : List (String × Nat)) : List.Perm (sortEntries l) l := by
  induction l with
  | nil => exact List.Perm.refl _
  | cons x xs ih => exact (insertEntry_perm x (sortEntries xs)).trans (List.Perm.cons x ih)

theorem insertEntry_sorted {x : String × Nat} {l : List (String × Nat)}
    (h : l.Pairwise (fun a b => b.2 ≤ a.2)) :
    (insertEntry x l).Pairwise (fun a b => b.2 ≤ a.2) := by
  induction l with
  | nil => simp [insertEntry]
  | cons z zs ih =>
    obtain ⟨hz, hzs⟩ := List.pairwise_cons.mp h
    simp only [insertEntry]
    split
    · refine List.pairwise_cons.mpr ⟨?_, h⟩
      intro b hb
      rcases List.mem_cons.mp hb with rfl | hb
      · omega
      · exact le_trans (hz b hb) (by omega)
    · refine List.pairwise_cons.mpr ⟨?_, ih hzs⟩
      intro b hb
      rcases mem_insertEntry.mp hb with rfl | hb
      · omega
      · exact hz b hb

theorem sortEntries_sorted (l : List (String × Nat)) :
    (sortEntries l).Pairwise (fun a b => b.2 ≤ a.2) := by
  induction l with
  | nil => simp [sortEntries]
  | cons x xs ih => exact insertEntry_sorted ih

theorem insertEntry_pairwise_tie {Q : String × Nat → String × Nat → Prop}
    {x : String × Nat} {l : List (String × Nat)}
    (h : l.Pairwise fun a b => a.2 = b.2 → Q a b)
    (hx : ∀ y ∈ l, x.2 = y.2 → Q x y) :
    (insertEntry x l).Pairwise fun a b => a.2 = b.2 → Q a b := by
  induction l with
  | nil => simp [insertEntry]
  | cons z zs ih =>
    obtain ⟨hz, hzs⟩ := List.pairwise_cons.mp h
    simp only [insertEntry]
    split
    · exact List.pairwise_cons.mpr ⟨fun b hb heq => hx b hb heq, h⟩
    · rename_i hzx
      refine List.pairwise_cons.mpr
        ⟨?_, ih hzs (fun y hy => hx y (List.mem_cons_of_mem _ hy))⟩
      intro b hb heq
      rcases mem_insertEntry.mp hb with rfl | hb
      · exact absurd heq.le hzx
      · exact hz b hb heq

theorem sortEntries_pairwise_tie {Q : String × Nat → String × Nat → Prop}
    {l : List (String × Nat)} (h : l.Pairwise fun a b => a.2 = b.2 → Q a b) :
    (sortEntries l).Pairwise fun a b => a.2 = b.2 → Q a b := by
  induction l with
  | nil => simp [sortEntries]
  | cons x xs ih =>
    obtain ⟨hx, hxs⟩ := List.pairwise_cons.mp h
    exact insertEntry_pairwise_tie (ih hxs)
      (fun y hy => hx y ((sortEntries_perm xs).mem_iff.mp hy))

theorem mem_keysFirstSeen {x : String} : ∀ {ks seen : List String},
    x ∈ keysFirstSeen seen ks ↔ x ∈ ks ∧ x ∉ seen := by
  intro ks
  induction ks with
  | nil => simp [keysFirstSeen]
  | cons k ks ih =>
    intro seen
    simp only [keysFirstSeen]
    split
    · rename_i hk
      rw [ih]
      constructor
      · rintro ⟨h1, h2⟩
        exact ⟨List.mem_cons_of_mem _ h1, h2⟩
      · rintro ⟨h1, h2⟩
        rcases List.mem_cons.mp h1 with rfl | h1
        · exact absurd hk h2
        · exact ⟨h1, h2⟩
    · rename_i hk
      rw [List.mem_cons, ih]
      constructor
      · rintro (rfl | ⟨h1, h2⟩)
        · exact ⟨List.mem_cons_self _ _, hk⟩
        · exact ⟨List.mem_cons_of_mem _ h1, fun hs => h2 (List.mem_cons_of_mem _ hs)⟩
      · rintro ⟨h1, h2⟩
        rcases List.mem_cons.mp h1 with rfl | h1
        · exact Or.inl rfl
        · by_cases hxk : x = k
          · exact Or.inl hxk
          · exact Or.inr ⟨h1, by simp [List.mem_cons, hxk, h2]⟩

theorem keysFirstSeen_nodup : ∀ {ks seen : List String}, (keysFirstSeen seen ks).Nodup := by
  intro ks
  induction ks with
  | nil => simp [keysFirstSeen]
  | cons k ks ih =>
    intro seen
    simp only [keysFirstSeen]
    split
    · exact ih
    · refine List.nodup_cons.mpr ⟨?_, ih⟩
      intro hmem
      exact (mem_keysFirstSeen.mp hmem).2 (List.mem_cons_self _ _)

theorem keysFirstSeen_pairwise_idx : ∀ (ks : List String) {seen : List String},
    (keysFirstSeen seen ks).Pairwise (fun a b => ks.indexOf a < ks.indexOf b) := by
  intro ks
  induction ks with
  | nil => simp [keysFirstSeen]
  | cons k ks ih =>
    intro seen
    simp only [keysFirstSeen]
    split
    · rename_i hk
      refine List.Pairwise.imp_of_mem ?_ (@ih seen)
      intro a b ha hb hab
      have hak : k ≠ a := fun h => (mem_keysFirstSeen.mp ha).2 (h ▸ hk)
      have hbk : k ≠ b := fun h => (mem_keysFirstSeen.mp hb).2 (h ▸ hk)
      rw [List.indexOf_cons_ne _ hak, List.indexOf_cons_ne _ hbk]
      exact Nat.succ_lt_succ hab
    · refine List.pairwise_cons.mpr ⟨?_, ?_⟩
      · intro b hb
        have hbk : k ≠ b := fun h =>
          (mem_keysFirstSeen.mp hb).2 (h ▸ List.mem_cons_self k seen)
        rw [List.indexOf_cons_self, List.indexOf_cons_ne _ hbk]
        exact Nat.succ_pos _
      · refine List.Pairwise.imp_of_mem ?_ (@ih (k :: seen))
        intro a b ha hb hab
        have hak : k ≠ a := fun h =>
          (mem_keysFirstSeen.mp ha).2 (h ▸ List.mem_cons_self k seen)
        have hbk : k ≠ b := fun h =>
          (mem_keysFirstSeen.mp hb).2 (h ▸ List.mem_cons_self k seen)
        rw [List.indexOf_cons_ne _ hak, List.indexOf_cons_ne _ hbk]
        exact Nat.succ_lt_succ hab

theorem subredditCounts_mem {a : List RawItem} {e : String × Nat}
    (h : e ∈ subredditCounts a) : e.2 = (a.map keyOf).count e.1 := by
  simp only [subredditCounts, List.mem_map] at h
  obtain ⟨k, _, rfl⟩ := h
  rfl

theorem count_keyOf (a : List RawItem) (k : String) :
    (a.map keyOf).count k = (a.filter (fun i => keyOf i = k)).length := by
  induction a with
  | nil => simp
  | cons i is ih =>
    by_cases hik : keyOf i = k <;>
      simp [List.count_cons, List.filter_cons, hik, ih]

theorem plainKey_not_index {k : String} (h : plainKey k = true) :
    isArrayIndexKey k = false := by
  unfold plainKey at h
  rcases (Bool.and_eq_true _ _).mp h with ⟨h1, _⟩
  simpa using h1

theorem plainKey_ne_proto {k : String} (h : plainKey k = true) : k ≠ "__proto__" := by
  intro he
  subst he
  exact absurd h (by decide)

theorem insertIdxKey_length (k : String) (l : List String) :
    (insertIdxKey k l).length = l.length + 1 := by
  induction l with
  | nil => rfl
  | cons j js ih =>
    simp only [insertIdxKey]
    split
    · rfl
    · simp [List.length_cons, ih]

theorem sortIdxKeys_length (l : List String) : (sortIdxKeys l).length = l.length := by
  induction l with
  | nil => rfl
  | cons k ks ih => simp [sortIdxKeys, insertIdxKey_length, ih]

theorem length_filter_add_not (p : String → Bool) (l : List String) :
    (l.filter p).length + (l.filter (fun k => !p k)).length = l.length := by
  induction l with
  | nil => rfl
  | cons x xs ih => by_cases h : p x <;> simp [List.filter_cons, h] <;> omega

theorem filter_ne_proto_eq_self {ks : List String} (h : ∀ k ∈ ks, k ≠ "__proto__") :
    ks.filter (fun k => k != "__proto__") = ks := by
  rw [List.filter_eq_self]
  intro a ha
  simpa using h a ha

theorem entriesKeys_of_plain (ks : List String) (h : ∀ k ∈ ks, plainKey k = true) :
    entriesKeys ks = keysFirstSeen [] ks := by
  unfold entriesKeys
  rw [filter_ne_proto_eq_self (fun k hk => plainKey_ne_proto (h k hk))]
  have hall : ∀ k ∈ keysFirstSeen [] ks, plainKey k = true :=
    fun k hk => h k (mem_keysFirstSeen.mp hk).1
  have h2 : (keysFirstSeen [] ks).filter (fun k => isArrayIndexKey k) = [] := by
    rw [List.filter_eq_nil_iff]
    intro k hk
    simp [plainKey_not_index (hall k hk)]
  have h3 : (keysFirstSeen [] ks).filter (fun k => !isArrayIndexKey k) =
      keysFirstSeen [] ks := by
    rw [List.filter_eq_self]
    intro k hk
    simp [plainKey_not_index (hall k hk)]
  rw [h2, h3]
  rfl

theorem entriesKeys_length_no_proto (ks : List String) (h : ∀ k ∈ ks, k ≠ "__proto__") :
    (entriesKeys ks).length = (keysFirstSeen [] ks).length := by
  unfold entriesKeys
  rw [filter_ne_proto_eq_self h, List.length_append, sortIdxKeys_length,
    length_filter_add_not]

theorem keysFirstSeen_length_dedup (ks : List String) :
    (keysFirstSeen [] ks).length = ks.dedup.length := by
  have h1 : (keysFirstSeen [] ks).Nodup := keysFirstSeen_nodup
  have h2 : ks.dedup.Nodup := List.nodup_dedup _
  have h3 : (keysFirstSeen [] ks).toFinset = ks.dedup.toFinset := by
    ext x
    simp [List.mem_toFinset, mem_keysFirstSeen, List.mem_dedup]
  rw [← List.toFinset_card_of_nodup h1, ← List.toFinset_card_of_nodup h2, h3]

theorem subredditCounts_pairwise_idx {a : List RawItem}
    (hplain : ∀ i ∈ a, plainKey (keyOf i) = true) :
    (subredditCounts a).Pairwise
      (fun x y => (a.map keyOf).indexOf x.1 < (a.map keyOf).indexOf y.1) := by
  have hk : ∀ k ∈ a.map keyOf, plainKey k = true := by
    intro k hkk
    obtain ⟨i, hi, rfl⟩ := List.mem_map.mp hkk
    exact hplain i hi
  unfold subredditCounts
  rw [entriesKeys_of_plain _ hk, List.pairwise_map]
  exact keysFirstSeen_pairwise_idx _

theorem subredditCounts_length {a : List RawItem}
    (hproto : ∀ i ∈ a, keyOf i ≠ "__proto__") :
    (subredditCounts a).length = (a.map keyOf).dedup.length := by
  have hk : ∀ k ∈ a.map keyOf, k ≠ "__proto__" := by
    intro k hkk
    obtain ⟨i, hi, rfl⟩ := List.mem_map.mp hkk
    exact hproto i hi
  unfold subredditCounts
  rw [List.length_map, entriesKeys_length_no_proto _ hk, keysFirstSeen_length_dedup]

theorem map_entry_roundtrip (L : List (String × Nat)) :
    (L.map (fun e => ({ subreddit := e.1, count := e.2 } : InterestEntry))).map
      (fun e => (e.subreddit, e.count)) = L := by
  induction L with
  | nil => rfl
  | cons x xs ih => simp [ih]

theorem interests_of_generate {u : String} {posts comments : List RawItem}
    {p : PersonaResult} {l : List InterestEntry}
    (h : generatePersona u posts comments = some p) (hl : p.interests = some l) :
    l = (topSubreddits (posts ++ comments)).map
      (fun e => ({ subreddit := e.1, count := e.2 } : InterestEntry)) := by
  rcases generate_eq_cases h with ⟨_, _, rfl⟩ | ⟨_, _, rfl⟩
  · simp [emptyResult] at hl
  · have : (analyzeResult u posts comments).interests =
        some ((topSubreddits (posts ++ comments)).map
          (fun e => ({ subreddit := e.1, count := e.2 } : InterestEntry))) := rfl
    rw [this] at hl
    exact (Option.some.inj hl).symm

/-! ## C5: interest counts, ranking and tie-break -/

/-- C5 counterexample: with origin "abc" encountered before origin "196"
(one item each), `Object.entries` enumerates the array-index key "196" first,
and the stable descending sort keeps that order among the tied counts, so the
produced entries are NOT in first-encountered order: the entry for "196"
precedes the entry for "abc" although "abc" occurs first in the item
sequence. -/
theorem persona_tie_break_integer_key :
    (generatePersona "u"
        [⟨some "x", none, some "abc", none⟩, ⟨some "x", none, some "196", none⟩] []).map
        (fun p => p.interests) =
      some (some [⟨"196", 1⟩, ⟨"abc", 1⟩]) ∧
    ¬(([(⟨some "x", none, some "abc", none⟩ : RawItem),
        ⟨some "x", none, some "196", none⟩].map keyOf).indexOf "196" <
      ([(⟨some "x", none, some "abc", none⟩ : RawItem),
        ⟨some "x", none, some "196", none⟩].map keyOf).indexOf "abc") := by
  constructor
  · decide
  · decide

/-- C5 (amended): for inputs whose origins are all plain object keys — not
canonical array-index strings such as "196" (which JavaScript enumerates
first, in numeric order) and not `Object.prototype` member names (whose
counts are corrupted or, for "__proto__", dropped) — every produced interest
entry counts exactly the items with its origin, the entries are sorted by
non-increasing count, and ties are ordered by the first occurrence of their
origin in the combined item sequence. -/
theorem persona_interests_ranking (u : String) (posts comments : List RawItem)
    (p : PersonaResult) (l : List InterestEntry)
    (h : generatePersona u posts comments = some p) (hl : p.interests = some l)
    (hplain : ∀ i ∈ posts ++ comments, plainKey (keyOf i) = true) :
    (∀ e ∈ l,
      e.count = ((posts ++ comments).filter (fun i => keyOf i = e.subreddit)).length) ∧
    l.Pairwise (fun a b => b.count ≤ a.count) ∧
    l.Pairwise (fun a b => a.count = b.count →
      ((posts ++ comments).map keyOf).indexOf a.subreddit <
        ((posts ++ comments).map keyOf).indexOf b.subreddit) := by
  rw [interests_of_generate h hl]
  refine ⟨?_, ?_, ?_⟩
  · intro e he
    simp only [List.mem_map] at he
    obtain ⟨x, hx, rfl⟩ := he
    have hx' : x ∈ sortEntries (subredditCounts (posts ++ comments)) :=
      List.take_subset _ _ hx
    have hx'' : x ∈ subredditCounts (posts ++ comments) :=
      (sortEntries_perm _).mem_iff.mp hx'
    show x.2 = _
    rw [← count_keyOf]
    exact subredditCounts_mem hx''
  · rw [List.pairwise_map]
    exact List.Pairwise.sublist (List.take_sublist _ _) (sortEntries_sorted _)
  · rw [List.pairwise_map]
    refine List.Pairwise.sublist (List.take_sublist _ _) ?_
    refine sortEntries_pairwise_tie ?_
    refine List.Pairwise.imp ?_ (subredditCounts_pairwise_idx hplain)
    intro a b hab
    exact fun _ => hab

/-- Witness for C5: the two produced entries for `w5Items` are sorted by
non-increasing count. -/
theorem persona_interests_ranking_witness :
    List.Pairwise (fun a b : InterestEntry => b.count ≤ a.count)
      [⟨"a", 2⟩, ⟨"b", 1⟩] :=
  (persona_interests_ranking "u" w5Items [] w5Result [⟨"a", 2⟩, ⟨"b", 1⟩]
    (by with_unfolding_all decide) rfl (by decide)).2.1

/-! ## C9: top-5 interests, top-3 engagement origins, shared ranking -/

/-- C9 counterexample: a single item with origin "__proto__" produces an
EMPTY interests list — the assignment `subredditCounts["__proto__"] = ...`
hits the inherited `Object.prototype` setter and creates no own key, so the
origin is silently dropped and the length falls below
`min 5 (number of distinct origins) = 1`. -/
theorem persona_proto_origin_dropped :
    (generatePersona "u" [⟨some "x", none, some "__proto__", none⟩] []).map
        (fun p => p.interests) = some (some ([] : List InterestEntry)) ∧
    ([] : List InterestEntry).length ≠
      min 5 ((([(⟨some "x", none, some "__proto__", none⟩ : RawItem)] :
        List RawItem).map keyOf).dedup.length) := by
  constructor
  · decide
  · decide

/-- C9 (amended): for non-empty inputs in which no origin is "__proto__"
(such an origin is silently dropped by the counting object), the interests
list has length `min 5 (number of distinct origins)`, the engagement's
top-origins list is exactly the first 3 entries of the same ranking, and its
length is `min 3 (number of distinct origins)`. -/
theorem persona_top_lengths (u : String) (posts comments : List RawItem)
    (p : PersonaResult) (l : List InterestEntry)
    (h : generatePersona u posts comments = some p) (hl : p.interests = some l)
    (hproto : ∀ i ∈ posts ++ comments, keyOf i ≠ "__proto__") :
    l.length = min 5 (((posts ++ comments).map keyOf).dedup.length) ∧
    p.engagement.mostActiveSubreddits =
      some ((l.map (fun e => (e.subreddit, e.count))).take 3) ∧
    ((l.map (fun e => (e.subreddit, e.count))).take 3).length =
      min 3 (((posts ++ comments).map keyOf).dedup.length) := by
  have hback : (l.map (fun e => (e.subreddit, e.count))) = topSubreddits (posts ++ comments) := by
    rw [interests_of_generate h hl]
    exact map_entry_roundtrip _
  have hlen : (topSubreddits (posts ++ comments)).length =
      min 5 (((posts ++ comments).map keyOf).dedup.length) := by
    rw [topSubreddits, List.length_take, (sortEntries_perm _).length_eq,
      subredditCounts_length hproto]
  rcases generate_eq_cases h with ⟨_, _, rfl⟩ | ⟨_, _, rfl⟩
  · simp [emptyResult] at hl
  · refine ⟨?_, ?_, ?_⟩
    · rw [interests_of_generate h hl, List.length_map, hlen]
    · rw [hback]
      rfl
    · rw [hback, List.length_take, hlen]
      omega

/-- Witness for C9: for `w5Items` (two distinct origins) the interests list
has length `min 5 2 = 2`. -/
theorem persona_top_lengths_witness :
    ([⟨"a", 2⟩, ⟨"b", 1⟩] : List InterestEntry).length =
      min 5 ((w5Items.map keyOf).dedup.length) :=
  (persona_top_lengths "u" w5Items [] w5Result [⟨"a", 2⟩, ⟨"b", 1⟩]
    (by with_unfolding_all decide) rfl (by decide)).1

/-! ## String lemmas for the renderer -/

theorem strData_append (s t : String) : (s ++ t).data = s.data ++ t.data := rfl

theorem strAppend_assoc (a b c : String) : a ++ b ++ c = a ++ (b ++ c) :=
  String.ext (by simp [strData_append, List.append_assoc])

theorem strInfix_of_split (x a b m : String) (h : m = a ++ x ++ b) :
    List.IsInfix x.data m.data := by
  refine ⟨a.data, b.data, ?_⟩
  rw [h]
  simp [strData_append]

theorem strPre_of_split (x b m : String) (h : m = x ++ b) :
    List.IsPrefix x.data m.data :=
  ⟨b.data, by rw [h]; simp [strData_append]⟩

theorem strSuf_of_split (x a m : String) (h : m = a ++ x) :
    List.IsSuffix x.data m.data :=
  ⟨a.data, by rw [h]; simp [strData_append]⟩

/-! ## C7: determinism of the renderer -/

/-- C7 counterexample: the renderer interpolates a live clock read
(`new Date().toISOString()`), so rendering the same `PersonaResult` at two
different instants yields different text — it is not a function of the
`PersonaResult` alone. -/
theorem format_differs_across_clock :
    formatPersonaAsText "2025-01-01T00:00:00.000Z" (emptyResult "u") ≠
      formatPersonaAsText "2025-01-01T00:00:00.001Z" (emptyResult "u") := by decide

/-- C7 (amended): the renderer is a deterministic pure function of the
`PersonaResult` TOGETHER WITH the generation timestamp: two renders agree
exactly when the interpolated timestamps agree (same persona, same instant
give byte-identical text; different instants always differ in the
`Generated:` line). -/
theorem format_deterministic_iff (p : PersonaResult) (now1 now2 : String) :
    formatPersonaAsText now1 p = formatPersonaAsText now2 p ↔ now1 = now2 := by
  constructor
  · intro h
    have hd := congrArg String.data h
    simp only [formatPersonaAsText, strData_append, List.append_assoc] at hd
    exact String.ext (List.append_cancel_right (List.append_cancel_left hd))
  · rintro rfl
    rfl

/-- Witness for C7 at a concrete persona and timestamp. -/
theorem format_deterministic_iff_witness :
    formatPersonaAsText "T" (emptyResult "v") = formatPersonaAsText "T" (emptyResult "v") ↔
      ("T" : String) = "T" :=
  format_deterministic_iff (emptyResult "v") "T" "T"

/-! ## C8: section omission and mandatory sections -/

/-- C8: the output decomposes into the fixed section sequence; the
`TOP INTERESTS` section is empty text when `interests` is absent or empty, the
`PERSONALITY TRAITS` section when `traits` is empty, and the
`Most Active Subreddits:` line when the engagement field is absent; while the
title banner (a prefix), username line, timestamp label, summary header,
engagement block with its totals, and the footer (a suffix) occur in every
render. -/
theorem format_sections (now : String) (p : PersonaResult) :
    formatPersonaAsText now p =
      headerPre p ++ now ++ summaryPart p ++ interestsPart p ++ traitsPart p
        ++ engagementPart p ++ mostActivePart p ++ footerPart ∧
    (p.interests = none ∨ p.interests = some [] → interestsPart p = "") ∧
    (p.traits = [] → traitsPart p = "") ∧
    (p.engagement.mostActiveSubreddits = none → mostActivePart p = "") ∧
    List.IsPrefix ("REDDIT USER PERSONA ANALYSIS").data (formatPersonaAsText now p).data ∧
    List.IsInfix ("Username: u/").data (formatPersonaAsText now p).data ∧
    List.IsInfix ("Generated: ").data (formatPersonaAsText now p).data ∧
    List.IsInfix ("SUMMARY").data (formatPersonaAsText now p).data ∧
    List.IsInfix ("ENGAGEMENT STATISTICS").data (formatPersonaAsText now p).data ∧
    List.IsInfix ("Total Posts: ").data (formatPersonaAsText now p).data ∧
    List.IsSuffix ("Analysis generated by Reddit Persona Analyzer" ++ "\n").data
      (formatPersonaAsText now p).data := by
  refine ⟨rfl, ?_, ?_, ?_, ?_, ?_, ?_, ?_, ?_, ?_, ?_⟩
  · rintro (h | h) <;> simp [interestsPart, h]
  · intro h
    simp [traitsPart, h]
  · intro h
    simp [mostActivePart, h]
  · refine strPre_of_split _ ("\n" ++ repChar '=' 50 ++ "\n\n" ++ "Username: u/"
      ++ p.username ++ "\n" ++ "Generated: " ++ now ++ summaryPart p ++ interestsPart p
      ++ traitsPart p ++ engagementPart p ++ mostActivePart p ++ footerPart) _ ?_
    simp only [formatPersonaAsText, headerPre, strAppend_assoc]
  · refine strInfix_of_split _
      ("REDDIT USER PERSONA ANALYSIS" ++ "\n" ++ repChar '=' 50 ++ "\n\n")
      (p.username ++ "\n" ++ "Generated: " ++ now ++ summaryPart p ++ interestsPart p
        ++ traitsPart p ++ engagementPart p ++ mostActivePart p ++ footerPart) _ ?_
    simp only [formatPersonaAsText, headerPre, strAppend_assoc]
  · refine strInfix_of_split _
      ("REDDIT USER PERSONA ANALYSIS" ++ "\n" ++ repChar '=' 50 ++ "\n\n"
        ++ "Username: u/" ++ p.username ++ "\n")
      (now ++ summaryPart p ++ interestsPart p ++ traitsPart p ++ engagementPart p
        ++ mostActivePart p ++ footerPart) _ ?_
    simp only [formatPersonaAsText, headerPre, strAppend_assoc]
  · refine strInfix_of_split _ (headerPre p ++ now ++ "\n\n")
      ("\n" ++ repChar '-' 20 ++ "\n" ++ p.summary ++ "\n\n" ++ interestsPart p
        ++ traitsPart p ++ engagementPart p ++ mostActivePart p ++ footerPart) _ ?_
    simp only [formatPersonaAsText, summaryPart, strAppend_assoc]
  · refine strInfix_of_split _
      (headerPre p ++ now ++ summaryPart p ++ interestsPart p ++ traitsPart p)
      ("\n" ++ repChar '-' 30 ++ "\n" ++ "Total Posts: "
        ++ toString p.engagement.totalPosts ++ "\n" ++ "Total Comments: "
        ++ toString p.engagement.totalComments ++ "\n" ++ "Average Score: "
        ++ ratToString p.engagement.avgScore ++ "\n"
        ++ mostActivePart p ++ footerPart) _ ?_
    simp only [formatPersonaAsText, engagementPart, strAppend_assoc]
  · refine strInfix_of_split _
      (headerPre p ++ now ++ summaryPart p ++ interestsPart p ++ traitsPart p
        ++ ("ENGAGEMENT STATISTICS" ++ "\n" ++ repChar '-' 30 ++ "\n"))
      (toString p.engagement.totalPosts ++ "\n" ++ "Total Comments: "
        ++ toString p.engagement.totalComments ++ "\n" ++ "Average Score: "
        ++ ratToString p.engagement.avgScore ++ "\n"
        ++ mostActivePart p ++ footerPart) _ ?_
    simp only [formatPersonaAsText, engagementPart, strAppend_assoc]
  · refine strSuf_of_split _
      (headerPre p ++ now ++ summaryPart p ++ interestsPart p ++ traitsPart p
        ++ engagementPart p ++ mostActivePart p ++ ("\n" ++ repChar '-' 50 ++ "\n")) _ ?_
    simp only [formatPersonaAsText, footerPart, strAppend_assoc]

/-- Witness for C8: for the degenerate persona every optional section is the
empty string. -/
theorem format_sections_witness :
    interestsPart (emptyResult "w") = "" ∧ traitsPart (emptyResult "w") = "" ∧
      mostActivePart (emptyResult "w") = "" :=
  ⟨(format_sections "t" (emptyResult "w")).2.1 (Or.inl rfl),
   (format_sections "t" (emptyResult "w")).2.2.1 rfl,
   (format_sections "t" (emptyResult "w")).2.2.2.1 rfl⟩

/-! ## C6: evidence shape, truncation, and the ellipsis marker -/

theorem content_length_mkEvidence (n : Nat) (i : RawItem) :
    (mkEvidence n i).content.length ≤ n + 3 := by
  have h1 : (mkEvidence n i).content.length =
      ((jsText i).data.take n).length + ("...".data).length := by
    show ((jsSubstring (jsText i) n ++ "...").data).length = _
    rw [strData_append]
    exact List.length_append _ _
  have h2 : ((jsText i).data.take n).length ≤ n := by
    rw [List.length_take]
    exact min_le_left _ _
  have h3 : ("...".data).length = 3 := rfl
  omega

theorem content_length_mkCommentEvidence (i : RawItem) :
    (mkCommentEvidence i).content.length ≤ 153 := by
  have h1 : (mkCommentEvidence i).content.length =
      ((jsBody i).data.take 150).length + ("...".data).length := by
    show ((jsSubstring (jsBody i) 150 ++ "...").data).length = _
    rw [strData_append]
    exact List.length_append _ _
  have h2 : ((jsBody i).data.take 150).length ≤ 150 := by
    rw [List.length_take]
    exact min_le_left _ _
  have h3 : ("...".data).length = 3 := rfl
  omega

/-- C6 counterexample: for two short r/art posts ("hi", "yo") the creative
trait's evidence snippets are `"hi..."` and `"yo..."` — the ellipsis marker is
appended even though nothing was truncated, whereas the claim requires the
untruncated snippet `"hi"` with no marker. -/
theorem evidence_ellipsis_always_appended :
    (generatePersona "u" [w10ItemA, w10ItemB] []).map
        (fun p => p.traits.map (fun t => t.evidence.map (fun e => e.content))) =
      some [["hi...", "yo..."]] ∧ ("hi..." : String) ≠ "hi" := by
  constructor
  · decide
  · decide

/-- C6 (amended): each detected trait's evidence list holds at most 2 entries,
namely the images of the earliest (at most two) qualifying items in sequence
order; each snippet is the item's text cut to the rule's length (100 for the
first three rules, 150 for Thoughtful Communicator) with the `"..."` marker
appended UNCONDITIONALLY (even when nothing was cut), so no snippet exceeds
the rule's truncation length plus the 3-character marker. -/
theorem persona_evidence_shape (u : String) (posts comments : List RawItem)
    (p : PersonaResult) (h : generatePersona u posts comments = some p) :
    ∀ t ∈ p.traits,
      t.evidence.length ≤ 2 ∧
      (t.trait = "Helpful and Supportive" →
        t.evidence = ((helpfulContent (posts ++ comments)).take 2).map (mkEvidence 100)) ∧
      (t.trait = "Technology Enthusiast" →
        t.evidence = ((techContent (posts ++ comments)).take 2).map (mkEvidence 100)) ∧
      (t.trait = "Creative and Artistic" →
        t.evidence = ((creativeContent (posts ++ comments)).take 2).map (mkEvidence 100)) ∧
      (t.trait = "Thoughtful Communicator" →
        t.evidence = ((longComments comments).take 2).map mkCommentEvidence) ∧
      (t.trait = "Thoughtful Communicator" → ∀ e ∈ t.evidence, e.content.length ≤ 153) ∧
      (t.trait ≠ "Thoughtful Communicator" → ∀ e ∈ t.evidence, e.content.length ≤ 103) := by
  intro t ht
  rcases generate_eq_cases h with ⟨_, _, rfl⟩ | ⟨_, _, rfl⟩
  · simp [emptyResult] at ht
  · have ht' : t ∈ traitsOf (posts ++ comments) comments := ht
    rcases mem_traitsOf.mp ht' with ⟨_, rfl⟩ | ⟨_, rfl⟩ | ⟨_, rfl⟩ | ⟨_, rfl⟩
    · refine ⟨?_, fun _ => rfl, fun hl => absurd hl (by simp [helpfulDetection]),
        fun hl => absurd hl (by simp [helpfulDetection]),
        fun hl => absurd hl (by simp [helpfulDetection]),
        fun hl => absurd hl (by simp [helpfulDetection]), fun _ e he => ?_⟩
      · simp only [helpfulDetection, List.length_map, List.length_take]
        omega
      · simp only [helpfulDetection, List.mem_map] at he
        obtain ⟨i, _, rfl⟩ := he
        exact content_length_mkEvidence 100 i
    · refine ⟨?_, fun hl => absurd hl (by simp [techDetection]), fun _ => rfl,
        fun hl => absurd hl (by simp [techDetection]),
        fun hl => absurd hl (by simp [techDetection]),
        fun hl => absurd hl (by simp [techDetection]), fun _ e he => ?_⟩
      · simp only [techDetection, List.length_map, List.length_take]
        omega
      · simp only [techDetection, List.mem_map] at he
        obtain ⟨i, _, rfl⟩ := he
        exact content_length_mkEvidence 100 i
    · refine ⟨?_, fun hl => absurd hl (by simp [creativeDetection]),
        fun hl => absurd hl (by simp [creativeDetection]), fun _ => rfl,
        fun hl => absurd hl (by simp [creativeDetection]),
        fun hl => absurd hl (by simp [creativeDetection]), fun _ e he => ?_⟩
      · simp only [creativeDetection, List.length_map, List.length_take]
        omega
      · simp only [creativeDetection, List.mem_map] at he
        obtain ⟨i, _, rfl⟩ := he
        exact content_length_mkEvidence 100 i
    · refine ⟨?_, fun hl => absurd hl (by simp [thoughtfulDetection]),
        fun hl => absurd hl (by simp [thoughtfulDetection]),
        fun hl => absurd hl (by simp [thoughtfulDetection]), fun _ => rfl,
        fun _ e he => ?_, fun hne => absurd rfl hne⟩
      · simp only [thoughtfulDetection, List.length_map, List.length_take]
        omega
      · simp only [thoughtfulDetection, List.mem_map] at he
        obtain ⟨i, _, rfl⟩ := he
        exact content_length_mkCommentEvidence i

/-- Witness for C6: the creative detection for two r/art posts carries at most
two evidence entries. -/
theorem persona_evidence_shape_witness : w10Trait.evidence.length ≤ 2 :=
  (persona_evidence_shape "u" [w10ItemA, w10ItemB] [] w10Result
    (by with_unfolding_all decide) w10Trait (by decide)).1

end PersonaAnalyzer
